import Mathlib

/-!
Shallow embedding of `src/collab_based_rec.py` (Anime-Recommender).

DataFrames of interaction records are embedded as `List Interaction`; column
operations become list operations. Integer user/anime identifiers and integer
ratings are embedded as `Int` (pandas int64, with values far from overflow in
this pipeline). The floating-point scoring step of `recommend_anime`
(lines 206-208) only reorders and decorates rows, so row-membership
properties are stated on the row set that reaches it.
-/

/-- One row of a score shard: columns `user_id`, `anime_id`, `rating`. -/
structure Interaction where
  user_id : Int
  anime_id : Int
  rating : Int
deriving DecidableEq, Repr

/-- Module-level constant `liked_anime_list` (line 6). -/
def liked_anime_list : List Int := [1, 21, 40748, 10629, 16498, 18397]

/-- `generate_rating` (lines 9-25): one synthetic record per liked title,
with `user_id = 0` and the given rating. -/
def generate_rating (liked_book_list : List Int) (rating : Int) : List Interaction :=
  liked_book_list.map (fun book => ⟨0, book, rating⟩)

/-- Per-user aggregate `num_same` of line 46: the `'same'` column of line 45
flags records whose `anime_id` is in `anime_list`, and `agg('sum')` over the
boolean column counts the user's records carrying the flag. -/
def overlap_count (data : List Interaction) (anime_list : List Int) (u : Int) : Nat :=
  (data.filter (fun r => decide (r.user_id = u ∧ r.anime_id ∈ anime_list))).length

/-- Per-user aggregate `count_review` of line 46: the user's number of
records in the shard. -/
def total_reviewed_count (data : List Interaction) (u : Int) : Nat :=
  (data.filter (fun r => decide (r.user_id = u))).length

/-- One row of the `grouped_data` frame of line 46. -/
structure UserStats where
  user_id : Int
  num_same : Nat
  count_review : Nat
deriving DecidableEq, Repr

/-- The `grouped_data` frame of line 46: `groupby('user_id')` (pandas sorts
group keys ascending) with the two aggregates. -/
def grouped_data (data : List Interaction) (anime_list : List Int) : List UserStats :=
  (List.insertionSort (· ≤ ·) (data.map (·.user_id)).dedup).map
    (fun u => ⟨u, overlap_count data anime_list u, total_reviewed_count data u⟩)

/-- Positional slice `df.iloc[:m]` for a possibly negative Python bound:
nonnegative `m` keeps the first `m` rows, negative `m` drops the last `-m`. -/
def ilocTake {α : Type} (l : List α) (m : Int) : List α :=
  l.take (if 0 ≤ m then m.toNat else l.length - (-m).toNat)

/-- The `selected_users` list of lines 47-51: filter the grouped rows by the
two thresholds, sort descending by `num_same`, slice to `max_members`, and
keep the `user_id` column. -/
def selected_users (data : List Interaction) (anime_list : List Int)
    (min_anime_similar : Nat) (max_members : Int) (max_anime_reviewed : Nat) : List Int :=
  (ilocTake
    (List.insertionSort (fun a b : UserStats => b.num_same ≤ a.num_same)
      ((grouped_data data anime_list).filter
        (fun s => decide (min_anime_similar ≤ s.num_same ∧ s.count_review < max_anime_reviewed))))
    max_members).map (·.user_id)

/-- `find_similar_user_interactions` (lines 28-52): all original records of
the selected users, in shard order, without the `'same'` column. -/
def find_similar_user_interactions (data : List Interaction) (anime_list : List Int)
    (min_anime_similar : Nat) (max_members : Int) (max_anime_reviewed : Nat) :
    List Interaction :=
  data.filter (fun r =>
    decide (r.user_id ∈ selected_users data anime_list min_anime_similar max_members
      max_anime_reviewed))

/-- Effect of line 45 on the caller's DataFrame: the `'same'` column
(`anime_id ∈ anime_list`) is written in place next to the existing columns. -/
def addSameColumn (data : List Interaction) (anime_list : List Int) :
    List (Interaction × Bool) :=
  data.map (fun r => (r, decide (r.anime_id ∈ anime_list)))

/-- `find_similar_user_interactions` with its caller-visible state made
explicit: first component is the caller's table after the call (line 45
mutates it in place), second is the returned table. -/
def find_similar_with_effect (data : List Interaction) (anime_list : List Int)
    (min_anime_similar : Nat) (max_members : Int) (max_anime_reviewed : Nat) :
    List (Interaction × Bool) × List Interaction :=
  (addSameColumn data anime_list,
   find_similar_user_interactions data anime_list min_anime_similar max_members
     max_anime_reviewed)

/-- Shard of the C1 scenario: user 101 ("A") rated items 1 and 21 among 5
reviews, user 202 ("B") rated item 1 among 3 reviews. -/
def recordsA : List Interaction :=
  [⟨101, 1, 10⟩, ⟨101, 21, 9⟩, ⟨101, 5, 8⟩, ⟨101, 6, 7⟩, ⟨101, 7, 8⟩]

def recordsB : List Interaction :=
  [⟨202, 1, 10⟩, ⟨202, 8, 6⟩, ⟨202, 9, 6⟩]

def shardC1 : List Interaction := recordsA ++ recordsB

/-- Result state of the shard loop of `find_total_similar_user_interactions`
(lines 79-100): the per-shard result list `users`, the running record total
`counter`, and `coverage_count`, the number of shards visited. -/
structure ScanResult where
  users : List (List Interaction)
  counter : Nat
  coverage_count : Nat
deriving Repr

/-- The loop of lines 85-98. Shard storage (`pd.read_parquet` of line 87) is
abstracted as the map `shards` from index to records, and the shuffled
`np.arange(5)` order as the explicit index list. Each shard is queried with
budget `max_members - counter`; `counter` grows by `len(temp)`, the number
of returned records; the loop breaks when the shard index `i` reaches
`coverage`, then when `counter` reaches `max_members`. -/
def scanShards (shards : Nat → List Interaction) (anime_list : List Int)
    (coverage min_anime_similar max_members max_anime_reviewed : Nat) :
    List Nat → Nat → Nat → List (List Interaction) → ScanResult
  | [], counter, coverage_count, users => ⟨users, counter, coverage_count⟩
  | i :: rest, counter, coverage_count, users =>
      let temp := find_similar_user_interactions (shards i) anime_list min_anime_similar
        ((max_members : Int) - (counter : Int)) max_anime_reviewed
      let counter2 := counter + temp.length
      let users2 := users ++ [temp]
      let cov2 := coverage_count + 1
      if coverage ≤ i then ⟨users2, counter2, cov2⟩
      else if max_members ≤ counter2 then ⟨users2, counter2, cov2⟩
      else scanShards shards anime_list coverage min_anime_similar max_members
        max_anime_reviewed rest counter2 cov2 users2

/-- `find_total_similar_user_interactions` (lines 55-100): run the loop from
the empty state and concatenate the per-shard results (line 100). -/
def find_total_similar_user_interactions (shards : Nat → List Interaction)
    (anime_list : List Int) (files : List Nat)
    (coverage min_anime_similar max_members max_anime_reviewed : Nat) :
    List Interaction :=
  (scanShards shards anime_list coverage min_anime_similar max_members max_anime_reviewed
    files 0 0 []).users.flatten

/-- The set of distinct users appearing in an interaction list. -/
def usersOf (l : List Interaction) : Finset Int := (l.map (·.user_id)).toFinset

/-- Shard store for the C2 counterexample: shard 0 holds one qualifying
user (id 7) with three records, other shards are empty. -/
def shardsC2 : Nat → List Interaction := fun i =>
  if i = 0 then [⟨7, 1, 10⟩, ⟨7, 21, 9⟩, ⟨7, 33, 8⟩] else []

/-- Shard store with all shards empty, for the C3 stopping-rule bug. -/
def emptyShards : Nat → List Interaction := fun _ => []

/-- One row of the `anime_recs` aggregate returned by
`create_anime_recommendation_df` (line 169): per-`anime_id` neighbor rating
`count` and `mean`. -/
structure AnimeRec where
  anime_id : Int
  count : Nat
  mean : ℚ
deriving DecidableEq, Repr

/-- One row of the catalog table `anime/anime.parquet` as consumed by
`recommend_anime` (lines 198-210): the display `Name`, aggregate `Score`,
and the popularity count column `'Scored By'` (field `Scored_By`). -/
structure CatalogRow where
  anime_id : Int
  Name : String
  Score : ℚ
  Scored_By : Nat
deriving DecidableEq, Repr

/-- One row of the `merged` frame of line 199. -/
structure MergedRow where
  anime_id : Int
  count : Nat
  mean : ℚ
  Name : String
  Score : ℚ
  Scored_By : Nat
deriving DecidableEq, Repr

/-- The inner merge of line 199 on `anime_id`. -/
def mergeRecs (anime_recs : List AnimeRec) (anime_list : List CatalogRow) :
    List MergedRow :=
  (anime_recs.map (fun a =>
    (anime_list.filter (fun c => decide (c.anime_id = a.anime_id))).map
      (fun c => ⟨a.anime_id, a.count, a.mean, c.Name, c.Score, c.Scored_By⟩))).flatten

/-- `recommend_anime` (lines 173-210) up to the row set that reaches the
scoring step: inner-merge with the catalog (line 199), drop rows whose
`anime_id` is in the module-level `liked_anime_list` (line 202), and keep
rows with `count > min_count` and `mean > min_mean` strictly (line 203).
Lines 206-208 compute the floating-point `adjusted_count` and
`recommend_score` on exactly these rows and sort by the score, and line 210
projects columns; none of that adds or removes a row, so row-membership
properties of the returned table are properties of this list. -/
def recommend_anime (anime_recs : List AnimeRec) (anime_list : List CatalogRow)
    (min_count : Nat) (min_mean : ℚ) : List MergedRow :=
  ((mergeRecs anime_recs anime_list).filter
      (fun m => decide (m.anime_id ∉ liked_anime_list))).filter
    (fun m => decide (min_count < m.count ∧ min_mean < m.mean))

/-- Aggregate input for the C4 scenario: item 99 endorsed by 3 neighbors
with mean 8. -/
def recsC4 : List AnimeRec := [⟨99, 3, 8⟩]

/-- Catalog for the C4 scenario: item 99 has `'Scored By' = 0`. -/
def catalogC4 : List CatalogRow := [⟨99, "Item99", 7, 0⟩]

/-- A plain qualifying aggregate row and catalog, used as witness input. -/
def recsOk : List AnimeRec := [⟨100, 3, 8⟩]

def catalogOk : List CatalogRow := [⟨100, "Item100", 9, 500⟩]

def mergedOk : MergedRow := ⟨100, 3, 8, "Item100", 9, 500⟩

/-- Pandas categorical code of a value over a column (lines 134-135):
`astype('category')` sorts the distinct values of the column and
`cat.codes` is the position in that sorted order, i.e. the number of
distinct column values strictly below the given value. -/
def catCode (vals : List Int) (v : Int) : Nat :=
  (vals.toFinset.filter (fun w => w < v)).card

/-- A row of the enriched `interactions` frame after lines 134-135, carrying
the dense `user_index` and `anime_index` columns. -/
structure IndexedInteraction where
  user_id : Int
  anime_id : Int
  rating : Int
  user_index : Nat
  anime_index : Nat
deriving DecidableEq, Repr

/-- Enrich one row with the categorical codes of its identifiers over the
given columns. -/
def indexRow (usersCol animesCol : List Int) (r : Interaction) : IndexedInteraction :=
  ⟨r.user_id, r.anime_id, r.rating, catCode usersCol r.user_id, catCode animesCol r.anime_id⟩

/-- Lines 134-135: enrich every row of the table with categorical codes
computed over the whole table's `user_id` and `anime_id` columns. -/
def addIndices (interactions : List Interaction) : List IndexedInteraction :=
  interactions.map
    (indexRow (interactions.map (·.user_id)) (interactions.map (·.anime_id)))

/-- Enriched table of `create_recommendation_matrix` (lines 103-140): the
target's synthetic ratings (line 131) concatenated with the accumulated
similar-user interactions (line 132), indexed by lines 134-135. The
`similar_interactions` argument abstracts the result of the
`find_total_similar_user_interactions` call of lines 128-130, whose shard
storage is external. -/
def create_recommendation_matrix (liked : List Int)
    (similar_interactions : List Interaction) : List IndexedInteraction :=
  addIndices (generate_rating liked 10 ++ similar_interactions)

/-- Entry `(i, j)` of the sparse matrix of lines 137-140: `coo_matrix`
collects one triple per table row and `tocsr()` sums the triples sharing a
position (scipy's documented duplicate handling for COO to CSR). -/
def matrixEntry (tbl : List IndexedInteraction) (i j : Nat) : Int :=
  ((tbl.filter (fun r => decide (r.user_index = i ∧ r.anime_index = j))).map
    (·.rating)).sum

/-- Modelled from the spec: the overwrite (last-write-wins) duplicate
semantics that the spec prescribes for the matrix builder, for comparison
with the summing behaviour of the source. -/
def matrixEntryOverwrite (tbl : List IndexedInteraction) (i j : Nat) : Int :=
  (((tbl.filter (fun r => decide (r.user_index = i ∧ r.anime_index = j))).map
    (·.rating)).getLast?).getD 0

/-- Concrete table for the C9 witness. -/
def tC9 : List Interaction := [⟨5, 1, 8⟩, ⟨7, 2, 9⟩]

theorem mem_selected_users_qualified {data : List Interaction} {anime_list : List Int}
    {ms : Nat} {mm : Int} {mr : Nat} {u : Int}
    (h : u ∈ selected_users data anime_list ms mm mr) :
    ms ≤ overlap_count data anime_list u ∧ total_reviewed_count data u < mr := by
  rw [selected_users, List.mem_map] at h
  obtain ⟨s, hs, hsu⟩ := h
  have hsort : s ∈ List.insertionSort (fun a b : UserStats => b.num_same ≤ a.num_same)
      ((grouped_data data anime_list).filter
        (fun s => decide (ms ≤ s.num_same ∧ s.count_review < mr))) :=
    (List.take_sublist _ _).subset hs
  have hfil := (List.perm_insertionSort _ _).subset hsort
  rw [List.mem_filter, decide_eq_true_eq] at hfil
  obtain ⟨hgrp, hcond⟩ := hfil
  rw [grouped_data, List.mem_map] at hgrp
  obtain ⟨v, _, hv⟩ := hgrp
  subst hsu
  rw [← hv] at hcond ⊢
  exact hcond

/-- C1: every user whose records appear in the output of
`find_similar_user_interactions` has `overlap_count` at least
`min_anime_similar` and `total_reviewed_count` below `max_anime_reviewed`
(so no disqualified user appears); and in the concrete scenario with target
items 1 and 21, user A rating both targets among 5 reviews and user B
rating one target among 3 reviews, with thresholds 2 and 500, exactly A's
records are returned. -/
theorem C1_find_similar_qualification :
    (∀ (data : List Interaction) (anime_list : List Int) (ms : Nat) (mm : Int) (mr : Nat)
        (r : Interaction), r ∈ find_similar_user_interactions data anime_list ms mm mr →
        ms ≤ overlap_count data anime_list r.user_id ∧
          total_reviewed_count data r.user_id < mr)
    ∧ find_similar_user_interactions shardC1 [1, 21] 2 100 500 = recordsA := by
  constructor
  · intro data al ms mm mr r hr
    rw [find_similar_user_interactions, List.mem_filter, decide_eq_true_eq] at hr
    exact mem_selected_users_qualified hr.2
  · decide

/-- Witness for C1 at the concrete scenario shard. -/
theorem C1_find_similar_qualification_witness :
    2 ≤ overlap_count shardC1 [1, 21] 101 ∧ total_reviewed_count shardC1 101 < 500 :=
  C1_find_similar_qualification.1 shardC1 [1, 21] 2 100 500 ⟨101, 1, 10⟩ (by decide)

theorem usersOf_append (a b : List Interaction) :
    usersOf (a ++ b) = usersOf a ∪ usersOf b := by
  simp [usersOf]

theorem card_usersOf_le_length (l : List Interaction) :
    (usersOf l).card ≤ l.length := by
  calc (usersOf l).card ≤ (l.map (·.user_id)).length := List.toFinset_card_le _
    _ = l.length := List.length_map _ _

theorem card_usersOf_find_similar_le (data : List Interaction) (al : List Int)
    (ms : Nat) (mm : Int) (mr : Nat) (h : 0 ≤ mm) :
    (usersOf (find_similar_user_interactions data al ms mm mr)).card ≤ mm.toNat := by
  have hsub : usersOf (find_similar_user_interactions data al ms mm mr) ⊆
      (selected_users data al ms mm mr).toFinset := by
    intro u hu
    rw [usersOf, List.mem_toFinset, List.mem_map] at hu
    obtain ⟨r, hr, rfl⟩ := hu
    rw [find_similar_user_interactions, List.mem_filter, decide_eq_true_eq] at hr
    rw [List.mem_toFinset]
    exact hr.2
  calc (usersOf (find_similar_user_interactions data al ms mm mr)).card
      ≤ (selected_users data al ms mm mr).toFinset.card := Finset.card_le_card hsub
    _ ≤ (selected_users data al ms mm mr).length := List.toFinset_card_le _
    _ ≤ mm.toNat := by
        rw [selected_users, List.length_map, ilocTake, if_pos h, List.length_take]
        exact Nat.min_le_left _ _

theorem scan_users_card_le (shards : Nat → List Interaction) (al : List Int)
    (coverage ms mm mr : Nat) :
    ∀ (files : List Nat) (counter cov : Nat) (acc : List (List Interaction)),
      (usersOf acc.flatten).card ≤ counter → counter ≤ mm →
      (usersOf (scanShards shards al coverage ms mm mr files counter cov
        acc).users.flatten).card ≤ mm := by
  intro files
  induction files with
  | nil =>
      intro counter cov acc h1 h2
      simpa [scanShards] using h1.trans h2
  | cons i rest ih =>
      intro counter cov acc h1 h2
      have h0 : (0 : Int) ≤ (mm : Int) - (counter : Int) := by omega
      have hcardtemp := card_usersOf_find_similar_le (shards i) al ms
        ((mm : Int) - (counter : Int)) mr h0
      have htoNat : (((mm : Int) - (counter : Int))).toNat = mm - counter := by omega
      rw [htoNat] at hcardtemp
      set temp := find_similar_user_interactions (shards i) al ms
        ((mm : Int) - (counter : Int)) mr with htemp
      have hacc : (usersOf ((acc ++ [temp]).flatten)).card ≤
          (usersOf acc.flatten).card + (usersOf temp).card := by
        rw [List.flatten_append]
        simp only [List.flatten_cons, List.flatten_nil, List.append_nil]
        rw [usersOf_append]
        exact Finset.card_union_le _ _
      have hlen : (usersOf temp).card ≤ temp.length := card_usersOf_le_length temp
      rw [scanShards]
      by_cases hci : coverage ≤ i
      · rw [if_pos hci]
        simp only
        rw [← htemp]
        omega
      · rw [if_neg hci]
        by_cases hmc : mm ≤ counter + temp.length
        · rw [if_pos hmc]
          simp only
          rw [← htemp]
          omega
        · rw [if_neg hmc]
          exact ih (counter + temp.length) (cov + 1) (acc ++ [temp]) (by omega) (by omega)

/-- C2 (amended): across every shard visitation order and every shard
contents, the number of distinct users accumulated by
`find_total_similar_user_interactions` never exceeds `max_members`; the
running total `counter` that the budget `max_members - counter` is computed
from is incremented by the number of interaction records each shard
returns (which is at least the number of users returned). -/
theorem C2_member_budget_invariant (shards : Nat → List Interaction) (al : List Int)
    (files : List Nat) (coverage ms mm mr : Nat) :
    (usersOf (find_total_similar_user_interactions shards al files coverage ms mm
      mr)).card ≤ mm := by
  have h := scan_users_card_le shards al coverage ms mm mr files 0 0 []
    (by simp [usersOf]) (Nat.zero_le _)
  simpa [find_total_similar_user_interactions] using h

/-- C2 counterexample: after visiting shard 0 the running total is 3, the
number of records returned, while only 1 user was returned, so the total is
not incremented by the number of users returned as the claim states. -/
theorem C2_counter_counts_records :
    (scanShards shardsC2 [1, 21] 5 2 100 500 [0] 0 0 []).counter = 3 ∧
    (usersOf (scanShards shardsC2 [1, 21] 5 2 100 500 [0] 0 0 []).users.flatten).card = 1 ∧
    (scanShards shardsC2 [1, 21] 5 2 100 500 [0] 0 0 []).counter ≠
      (usersOf (scanShards shardsC2 [1, 21] 5 2 100 500 [0] 0 0 []).users.flatten).card := by
  decide

/-- C3: the loop's stopping rule compares the shard's raw index value `i`
against `coverage` (line 93), not the count of shards visited: with
`coverage = 3` and identical (empty) shard contents, visitation order
4,3,2,1,0 visits a single shard while order 0,1,2,3,4 visits four, so the
number of shards visited is not determined by a visited-count comparison. -/
theorem C3_stop_depends_on_index_value :
    (scanShards emptyShards [] 3 2 100 500 [4, 3, 2, 1, 0] 0 0 []).coverage_count = 1 ∧
    (scanShards emptyShards [] 3 2 100 500 [0, 1, 2, 3, 4] 0 0 []).coverage_count = 4 := by
  decide

/-- C4: the code applies no filter on `'Scored By'`: with a catalog item 99
whose popularity count is 0 and a qualifying aggregate row, the row reaches
the `adjusted_count` computation of line 206 (so `np.log(0)` is taken,
giving a division by `exp2(-inf) = 0` and an infinite score) and stays in
the returned table, contradicting the claim that such items are excluded
before the logarithm. -/
theorem C4_zero_popularity_reaches_log :
    recommend_anime recsC4 catalogC4 2 7 = [⟨99, 3, 8, "Item99", 7, 0⟩] ∧
    (⟨99, 3, 8, "Item99", 7, 0⟩ : MergedRow).Scored_By = 0 := by
  constructor
  · decide
  · rfl

/-- C6: every row of the table returned by `recommend_anime` satisfies
`count > min_count` and `mean > min_mean` with strict inequality. -/
theorem C6_strict_thresholds (anime_recs : List AnimeRec) (anime_list : List CatalogRow)
    (min_count : Nat) (min_mean : ℚ) (m : MergedRow)
    (h : m ∈ recommend_anime anime_recs anime_list min_count min_mean) :
    min_count < m.count ∧ min_mean < m.mean := by
  rw [recommend_anime, List.mem_filter, decide_eq_true_eq] at h
  exact h.2

/-- Witness for C6 at a concrete qualifying input. -/
theorem C6_strict_thresholds_witness :
    2 < mergedOk.count ∧ (7 : ℚ) < mergedOk.mean :=
  C6_strict_thresholds recsOk catalogOk 2 7 mergedOk (by decide)

/-- C7: no `anime_id` belonging to the module-level target liked set
`liked_anime_list` appears in the output of `recommend_anime`. -/
theorem C7_no_liked_in_output (anime_recs : List AnimeRec) (anime_list : List CatalogRow)
    (min_count : Nat) (min_mean : ℚ) (m : MergedRow)
    (h : m ∈ recommend_anime anime_recs anime_list min_count min_mean) :
    m.anime_id ∉ liked_anime_list := by
  rw [recommend_anime, List.mem_filter] at h
  have h2 := h.1
  rw [List.mem_filter, decide_eq_true_eq] at h2
  exact h2.2

/-- Witness for C7 at a concrete qualifying input. -/
theorem C7_no_liked_in_output_witness :
    mergedOk.anime_id ∉ liked_anime_list :=
  C7_no_liked_in_output recsOk catalogOk 2 7 mergedOk (by decide)

theorem filter_map_comm {α β : Type} (f : α → β) (p : β → Bool) (l : List α) :
    (l.map f).filter p = (l.filter (fun x => p (f x))).map f := by
  induction l with
  | nil => rfl
  | cons x xs ih =>
      by_cases h : p (f x) = true
      · simp [List.filter_cons, h, ih]
      · simp [List.filter_cons, h, ih]

theorem catCode_lt_of_mem {vals : List Int} {u v : Int} (hu : u ∈ vals) (huv : u < v) :
    catCode vals u < catCode vals v := by
  have hsub : vals.toFinset.filter (fun w => w < u) ⊆
      vals.toFinset.filter (fun w => w < v) := by
    intro x hx
    rw [Finset.mem_filter] at hx ⊢
    exact ⟨hx.1, hx.2.trans huv⟩
  apply Finset.card_lt_card
  rw [Finset.ssubset_iff_of_subset hsub]
  exact ⟨u, Finset.mem_filter.mpr ⟨List.mem_toFinset.mpr hu, huv⟩,
    fun hc => absurd (Finset.mem_filter.mp hc).2 (lt_irrefl u)⟩

theorem catCode_inj_of_mem {vals : List Int} {u v : Int} (hu : u ∈ vals) (hv : v ∈ vals)
    (h : catCode vals u = catCode vals v) : u = v := by
  rcases lt_trichotomy u v with hlt | heq | hgt
  · exact absurd h (Nat.ne_of_lt (catCode_lt_of_mem hu hlt))
  · exact heq
  · exact absurd h.symm (Nat.ne_of_lt (catCode_lt_of_mem hv hgt))

theorem sum_filter_indexRow (usersCol animesCol : List Int) (u a : Int)
    (hu : u ∈ usersCol) (ha : a ∈ animesCol) :
    ∀ l : List Interaction, (∀ r ∈ l, r.user_id ∈ usersCol ∧ r.anime_id ∈ animesCol) →
      (((l.map (indexRow usersCol animesCol)).filter
          (fun r => decide (r.user_index = catCode usersCol u ∧
            r.anime_index = catCode animesCol a))).map (·.rating)).sum
        = ((l.filter (fun r => decide (r.user_id = u ∧ r.anime_id = a))).map
            (·.rating)).sum := by
  intro l
  induction l with
  | nil => intro _; rfl
  | cons x xs ih =>
      intro hmem
      have hx := hmem x (List.mem_cons_self x xs)
      have hxs : ∀ r ∈ xs, r.user_id ∈ usersCol ∧ r.anime_id ∈ animesCol :=
        fun r hr => hmem r (List.mem_cons_of_mem x hr)
      have hiff : (catCode usersCol x.user_id = catCode usersCol u ∧
          catCode animesCol x.anime_id = catCode animesCol a)
          ↔ (x.user_id = u ∧ x.anime_id = a) := by
        constructor
        · rintro ⟨h1, h2⟩
          exact ⟨catCode_inj_of_mem hx.1 hu h1, catCode_inj_of_mem hx.2 ha h2⟩
        · rintro ⟨h1, h2⟩
          rw [h1, h2]
          exact ⟨rfl, rfl⟩
      simp only [List.map_cons, List.filter_cons]
      by_cases hc : x.user_id = u ∧ x.anime_id = a
      · rw [if_pos (by exact decide_eq_true (show (indexRow usersCol animesCol
            x).user_index = catCode usersCol u ∧ (indexRow usersCol animesCol
            x).anime_index = catCode animesCol a from hiff.mpr hc)),
          if_pos (decide_eq_true hc)]
        simp only [List.map_cons, List.sum_cons]
        rw [ih hxs]
        rfl
      · rw [if_neg (show ¬(decide ((indexRow usersCol animesCol x).user_index =
              catCode usersCol u ∧ (indexRow usersCol animesCol x).anime_index =
              catCode animesCol a) = true) from
            fun hdec => hc (hiff.mp (of_decide_eq_true hdec))),
          if_neg (fun hdec => hc (of_decide_eq_true hdec))]
        exact ih hxs

theorem matrixEntry_addIndices (t : List Interaction) (u a : Int)
    (hu : u ∈ t.map (·.user_id)) (ha : a ∈ t.map (·.anime_id)) :
    matrixEntry (addIndices t) (catCode (t.map (·.user_id)) u)
      (catCode (t.map (·.anime_id)) a)
      = ((t.filter (fun r => decide (r.user_id = u ∧ r.anime_id = a))).map
          (·.rating)).sum := by
  rw [matrixEntry, addIndices]
  exact sum_filter_indexRow _ _ u a hu ha t
    (fun r hr => ⟨List.mem_map_of_mem _ hr, List.mem_map_of_mem _ hr⟩)

/-- C5 (amended): for every pair of identifiers present in the concatenated
interaction table, the built matrix entry at that pair's dense position is
the SUM of all ratings recorded for the pair (scipy sums duplicate COO
entries on `tocsr()`), not the last written rating. -/
theorem C5_duplicates_summed (liked : List Int) (similar : List Interaction) (u a : Int)
    (hu : u ∈ (generate_rating liked 10 ++ similar).map (·.user_id))
    (ha : a ∈ (generate_rating liked 10 ++ similar).map (·.anime_id)) :
    matrixEntry (create_recommendation_matrix liked similar)
        (catCode ((generate_rating liked 10 ++ similar).map (·.user_id)) u)
        (catCode ((generate_rating liked 10 ++ similar).map (·.anime_id)) a)
      = (((generate_rating liked 10 ++ similar).filter
          (fun r => decide (r.user_id = u ∧ r.anime_id = a))).map (·.rating)).sum :=
  matrixEntry_addIndices _ u a hu ha

/-- Witness for the amended C5: the duplicate pair (user 0, anime 1) of
`create_recommendation_matrix [1] [⟨0, 1, 7⟩]` sums to 17. -/
theorem C5_duplicates_summed_witness :
    matrixEntry (create_recommendation_matrix [1] [⟨0, 1, 7⟩])
        (catCode ((generate_rating [1] 10 ++ ([⟨0, 1, 7⟩] : List Interaction)).map
          (·.user_id)) 0)
        (catCode ((generate_rating [1] 10 ++ ([⟨0, 1, 7⟩] : List Interaction)).map
          (·.anime_id)) 1)
      = (((generate_rating [1] 10 ++ ([⟨0, 1, 7⟩] : List Interaction)).filter
          (fun r => decide (r.user_id = 0 ∧ r.anime_id = 1))).map (·.rating)).sum :=
  C5_duplicates_summed [1] [⟨0, 1, 7⟩] 0 1 (by decide) (by decide)

/-- C5 counterexample: in `create_recommendation_matrix [1] [⟨0, 1, 7⟩]` the
pair (user 0, anime 1) occurs twice, with rating 10 from the synthetic
target row and then 7 from the accumulated row; the matrix entry is the sum
17, not the last written rating 7, refuting overwrite semantics. -/
theorem C5_overwrite_refuted :
    matrixEntry (create_recommendation_matrix [1] [⟨0, 1, 7⟩]) 0 0 = 17 ∧
    matrixEntryOverwrite (create_recommendation_matrix [1] [⟨0, 1, 7⟩]) 0 0 = 7 ∧
    matrixEntry (create_recommendation_matrix [1] [⟨0, 1, 7⟩]) 0 0 ≠
      matrixEntryOverwrite (create_recommendation_matrix [1] [⟨0, 1, 7⟩]) 0 0 := by
  decide

/-- C8: in the enriched table built by `create_recommendation_matrix`, the
dense index assigned to `user_id` 0 is 0, and rows with dense index 0 map
back only to `user_id` 0 (round-trip), provided the liked list is nonempty
(so the synthetic target rows of line 131 exist) and shard user identifiers
are nonnegative (0 being reserved for the target). -/
theorem C8_target_row_roundtrip (liked : List Int) (similar : List Interaction)
    (hne : liked ≠ []) (hnn : ∀ r ∈ similar, 0 ≤ r.user_id) :
    (∀ row ∈ create_recommendation_matrix liked similar,
      (row.user_id = 0 → row.user_index = 0) ∧ (row.user_index = 0 → row.user_id = 0)) ∧
    ∃ row ∈ create_recommendation_matrix liked similar, row.user_id = 0 := by
  set t := generate_rating liked 10 ++ similar with ht
  have hnncol : ∀ v ∈ t.map (·.user_id), 0 ≤ v := by
    intro v hv
    rw [List.mem_map] at hv
    obtain ⟨r, hr, rfl⟩ := hv
    rw [ht, List.mem_append] at hr
    rcases hr with hr | hr
    · rw [generate_rating, List.mem_map] at hr
      obtain ⟨b, _, rfl⟩ := hr
      exact le_refl 0
    · exact hnn r hr
  obtain ⟨b, hb⟩ := List.exists_mem_of_ne_nil liked hne
  have htarget : (⟨0, b, 10⟩ : Interaction) ∈ t := by
    rw [ht]
    exact List.mem_append_left _ (List.mem_map_of_mem _ hb)
  have h0mem : (0 : Int) ∈ t.map (·.user_id) := List.mem_map_of_mem _ htarget
  have hcode0 : catCode (t.map (·.user_id)) 0 = 0 := by
    rw [catCode, Finset.card_eq_zero, Finset.filter_eq_empty_iff]
    intro w hw
    rw [List.mem_toFinset] at hw
    exact not_lt.mpr (hnncol w hw)
  constructor
  · intro row hrow
    rw [create_recommendation_matrix, ← ht, addIndices, List.mem_map] at hrow
    obtain ⟨r, hr, rfl⟩ := hrow
    constructor
    · intro h0
      show catCode (t.map (·.user_id)) r.user_id = 0
      rw [show r.user_id = 0 from h0]
      exact hcode0
    · intro hidx
      show r.user_id = 0
      have hrmem : r.user_id ∈ t.map (·.user_id) := List.mem_map_of_mem _ hr
      exact catCode_inj_of_mem hrmem h0mem
        ((show catCode (t.map (·.user_id)) r.user_id = 0 from hidx).trans hcode0.symm)
  · refine ⟨indexRow (t.map (·.user_id)) (t.map (·.anime_id)) ⟨0, b, 10⟩, ?_, rfl⟩
    rw [create_recommendation_matrix, ← ht, addIndices]
    exact List.mem_map_of_mem _ htarget

/-- Witness for C8 at a concrete liked list and accumulated table. -/
theorem C8_target_row_roundtrip_witness :
    (∀ row ∈ create_recommendation_matrix [1, 21] [⟨5, 2, 8⟩],
      (row.user_id = 0 → row.user_index = 0) ∧ (row.user_index = 0 → row.user_id = 0)) ∧
    ∃ row ∈ create_recommendation_matrix [1, 21] [⟨5, 2, 8⟩], row.user_id = 0 :=
  C8_target_row_roundtrip [1, 21] [⟨5, 2, 8⟩] (by decide) (by decide)

/-- C9: the matrix-building step is a function of its input table only:
equal input tables yield identical enriched index assignments and identical
matrix entries; moreover the index assignment follows the deterministic
sorted order of the identifier domain (strictly monotone on identifiers
present in the table). -/
theorem C9_builder_deterministic (t₁ t₂ : List Interaction) (h : t₁ = t₂) :
    (addIndices t₁ = addIndices t₂ ∧
      ∀ i j : Nat, matrixEntry (addIndices t₁) i j = matrixEntry (addIndices t₂) i j) ∧
    ∀ u v : Int, u ∈ t₁.map (·.user_id) → v ∈ t₁.map (·.user_id) → u < v →
      catCode (t₁.map (·.user_id)) u < catCode (t₁.map (·.user_id)) v := by
  subst h
  exact ⟨⟨rfl, fun i j => rfl⟩, fun u v hu hv huv => catCode_lt_of_mem hu huv⟩

/-- Witness for C9 at a concrete table. -/
theorem C9_builder_deterministic_witness :
    addIndices tC9 = addIndices tC9 ∧
    catCode (tC9.map (·.user_id)) 5 < catCode (tC9.map (·.user_id)) 7 :=
  ⟨(C9_builder_deterministic tC9 tC9 rfl).1.1,
   (C9_builder_deterministic tC9 tC9 rfl).2 5 7 (by decide) (by decide) (by decide)⟩

/-- C10: the call mutates its input table: after the call the caller's
table carries the extra `'same'` overlap-flag column while every original
column is unchanged (projecting the flag away returns the input rows in
order), and the returned table consists of rows of the post-call table with
the flag column dropped. -/
theorem C10_in_place_same_column (data : List Interaction) (anime_list : List Int)
    (ms : Nat) (mm : Int) (mr : Nat) :
    ((find_similar_with_effect data anime_list ms mm mr).1.map Prod.fst = data) ∧
    (∀ p ∈ (find_similar_with_effect data anime_list ms mm mr).1,
      p.2 = true ↔ p.1.anime_id ∈ anime_list) ∧
    (find_similar_with_effect data anime_list ms mm mr).2 =
      ((find_similar_with_effect data anime_list ms mm mr).1.filter
        (fun p => decide (p.1.user_id ∈
          selected_users data anime_list ms mm mr))).map Prod.fst := by
  refine ⟨?_, ?_, ?_⟩
  · show (addSameColumn data anime_list).map Prod.fst = data
    rw [addSameColumn, List.map_map]
    exact List.map_id data
  · intro p hp
    have hp2 : p ∈ addSameColumn data anime_list := hp
    rw [addSameColumn, List.mem_map] at hp2
    obtain ⟨r, _, rfl⟩ := hp2
    show decide (r.anime_id ∈ anime_list) = true ↔ r.anime_id ∈ anime_list
    exact decide_eq_true_iff
  · show find_similar_user_interactions data anime_list ms mm mr =
      ((addSameColumn data anime_list).filter
        (fun p => decide (p.1.user_id ∈
          selected_users data anime_list ms mm mr))).map Prod.fst
    rw [addSameColumn, filter_map_comm, List.map_map]
    rw [find_similar_user_interactions]
    exact (List.map_id _).symm

/-- Witness for C10 at the concrete scenario shard. -/
theorem C10_in_place_same_column_witness :
    ((find_similar_with_effect shardC1 [1, 21] 2 100 500).1.map Prod.fst = shardC1) ∧
    (((⟨101, 1, 10⟩ : Interaction), true) ∈
        (find_similar_with_effect shardC1 [1, 21] 2 100 500).1 →
      ((((⟨101, 1, 10⟩ : Interaction), true) : Interaction × Bool).2 = true ↔
        (((⟨101, 1, 10⟩ : Interaction), true) : Interaction × Bool).1.anime_id ∈ [1, 21])) :=
  ⟨(C10_in_place_same_column shardC1 [1, 21] 2 100 500).1,
   fun hmem => (C10_in_place_same_column shardC1 [1, 21] 2 100 500).2.1
     ((⟨101, 1, 10⟩ : Interaction), true) hmem⟩
